import Mathlib

/-!
Shallow embedding of the mapshader rendering core
(mapshader/core.py, mapshader/sources.py) and proofs about its
aggregation-and-shading pipeline.

Numeric values (coordinates, padding fractions, grid cells, zoom levels)
are modelled as rationals.  A grid cell is `Option ℚ`, with `none`
standing for the NaN / no-data sentinel.  Fallible code paths are
modelled with `Except String`.
-/

namespace Mapshader

/-- A grid cell: `none` models the floating NaN (no-data) sentinel. -/
abbrev Cell := Option ℚ

/-- A 2-D numeric grid, row major (rows indexed by y, columns by x). -/
abbrev Grid := List (List Cell)

/-- `ds.Canvas(plot_width=..., plot_height=..., x_range=..., y_range=...)`.
Pixel dimensions are rationals because `raster_aggregation` multiplies them
by a rational padding factor before constructing the internal canvas. -/
structure Canvas where
  plot_width : ℚ
  plot_height : ℚ
  x_range : ℚ × ℚ
  y_range : ℚ × ℚ
  deriving DecidableEq, Repr

/-- The internal canvas `stcvs` built by `raster_aggregation`
(core.py lines 102-125): the pixel dimensions are always multiplied by
`1 + 2 * padding`; when `padding > 0` the new x bounds are
`xmin - xdrange` and `xmin + xdrange`, and the new y bounds are
`ymin - ydrange` and `xmin + ydrange` (the upper y bound reads `xmin`
in the source), otherwise the requested bounds are kept. -/
def stcvs (cvs : Canvas) (padding : ℚ) : Canvas :=
  let xmin := cvs.x_range.1
  let xmax := cvs.x_range.2
  let ymin := cvs.y_range.1
  let ymax := cvs.y_range.2
  let xdrange := (xmax - xmin) * (1 + 2 * padding)
  let ydrange := (ymax - ymin) * (1 + 2 * padding)
  let xsize := cvs.plot_width * (1 + 2 * padding)
  let ysize := cvs.plot_height * (1 + 2 * padding)
  if padding > 0 then
    { plot_width := xsize, plot_height := ysize,
      x_range := (xmin - xdrange, xmin + xdrange),
      y_range := (ymin - ydrange, xmin + ydrange) }
  else
    { plot_width := xsize, plot_height := ysize,
      x_range := (xmin, xmax), y_range := (ymin, ymax) }

/-- C1, as stated, is false: with padding 1/2 on the requested window
x_range = (0, 10), y_range = (100, 120), the internal canvas x-range is
(-20, 20), which is not anchored at the original lower corner 0 and whose
width 40 is not (10 - 0) * (1 + 2 * (1/2)) = 20; the y-range is (60, 40)
because the source uses `xmin` for the upper y bound. -/
theorem c1_counterexample :
    (stcvs ⟨256, 256, (0, 10), (100, 120)⟩ (1/2)).x_range = (-20, 20) ∧
    (stcvs ⟨256, 256, (0, 10), (100, 120)⟩ (1/2)).x_range.1 ≠ 0 ∧
    (stcvs ⟨256, 256, (0, 10), (100, 120)⟩ (1/2)).x_range.2 -
      (stcvs ⟨256, 256, (0, 10), (100, 120)⟩ (1/2)).x_range.1 ≠
      (10 - 0) * (1 + 2 * (1/2)) ∧
    (stcvs ⟨256, 256, (0, 10), (100, 120)⟩ (1/2)).y_range = (60, 40) := by
  refine ⟨?_, ?_, ?_, ?_⟩ <;> norm_num [stcvs]

/-- C1 (amended): the internal resample canvas always has pixel dimensions
`original_dim * (1 + 2 p)` on each axis; for `p > 0` the sampled region on
the x axis is the interval of half-width `x_range * (1 + 2 p)` centred on
the original lower x corner (total expansion factor `2 * (1 + 2 p)`, not
`1 + 2 p`), and the y interval runs from `ymin - y_range * (1 + 2 p)` up to
`xmin + y_range * (1 + 2 p)` (the upper y bound is computed from the lower
x corner in the source); with `p = 0` the internal canvas is identical to
the requested canvas. -/
theorem c1_padded_canvas (cvs : Canvas) (p : ℚ) (hp : 0 < p) :
    (stcvs cvs p).plot_width = cvs.plot_width * (1 + 2 * p) ∧
    (stcvs cvs p).plot_height = cvs.plot_height * (1 + 2 * p) ∧
    (stcvs cvs p).x_range =
      (cvs.x_range.1 - (cvs.x_range.2 - cvs.x_range.1) * (1 + 2 * p),
       cvs.x_range.1 + (cvs.x_range.2 - cvs.x_range.1) * (1 + 2 * p)) ∧
    (stcvs cvs p).y_range =
      (cvs.y_range.1 - (cvs.y_range.2 - cvs.y_range.1) * (1 + 2 * p),
       cvs.x_range.1 + (cvs.y_range.2 - cvs.y_range.1) * (1 + 2 * p)) ∧
    stcvs cvs 0 = cvs := by
  obtain ⟨w, h, ⟨x0, x1⟩, ⟨y0, y1⟩⟩ := cvs
  refine ⟨?_, ?_, ?_, ?_, ?_⟩ <;> simp [stcvs, hp] <;> ring

/-- Witness for `c1_padded_canvas` at the canvas ⟨256, 256, (0, 10), (100, 120)⟩
with p = 1/2. -/
theorem c1_padded_canvas_witness :
    (0 : ℚ) < 1/2 ∧
    ((stcvs ⟨256, 256, (0, 10), (100, 120)⟩ (1/2)).plot_width
        = 256 * (1 + 2 * (1/2)) ∧
     (stcvs ⟨256, 256, (0, 10), (100, 120)⟩ (1/2)).plot_height
        = 256 * (1 + 2 * (1/2)) ∧
     (stcvs ⟨256, 256, (0, 10), (100, 120)⟩ (1/2)).x_range
        = (0 - (10 - 0) * (1 + 2 * (1/2)), 0 + (10 - 0) * (1 + 2 * (1/2))) ∧
     (stcvs ⟨256, 256, (0, 10), (100, 120)⟩ (1/2)).y_range
        = (100 - (120 - 100) * (1 + 2 * (1/2)), 0 + (120 - 100) * (1 + 2 * (1/2))) ∧
     stcvs ⟨256, 256, (0, 10), (100, 120)⟩ 0 = ⟨256, 256, (0, 10), (100, 120)⟩) :=
  ⟨by norm_num, c1_padded_canvas ⟨256, 256, (0, 10), (100, 120)⟩ (1/2) (by norm_num)⟩

/-- A raster `xr.DataArray`: per-axis coordinate vectors plus the cell
values, dims ordered (y, x), so `len(...)` of the array is the length of
the y axis.  The y coordinate vector is stored in the descending label
order assumed by the `slice(ymax, ymin)` indexing idiom of the source. -/
structure RasterData where
  ycoords : List ℚ
  xcoords : List ℚ
  values : Grid
  deriving DecidableEq

/-- The `data` of a source: either a raster DataArray or a tabular frame
of named value columns. -/
inductive SrcData where
  | raster (r : RasterData)
  | table (cols : List (String × List Cell))
  deriving DecidableEq

/-- The `span` attribute: Python `None`, the string value min/max, or an
explicit numeric pair. -/
inductive Span where
  | noSpan
  | minmax
  | pair (lo hi : ℚ)
  deriving DecidableEq

/-- The `cmap` attribute: a dict (categorical value-to-color key) or a
list of colors for continuous shading. -/
inductive ColorMap where
  | categorical (key : List (ℚ × String))
  | continuous (colors : List String)
  deriving DecidableEq

/-- The y labels selected by the label-based y slice
(from new_ymax down to new_ymin) under the canvas produced by
`stcvs cvs padding`: the y coordinates falling inside the closed window. -/
def ywindow (cvs : Canvas) (r : RasterData) (padding : ℚ) : List ℚ :=
  let c := stcvs cvs padding
  r.ycoords.filter (fun v => decide (c.y_range.1 ≤ v ∧ v ≤ c.y_range.2))

/-- The x labels selected by the label-based x slice
(from new_xmin to new_xmax) under the canvas produced by
`stcvs cvs padding`. -/
def xwindow (cvs : Canvas) (r : RasterData) (padding : ℚ) : List ℚ :=
  let c := stcvs cvs padding
  r.xcoords.filter (fun v => decide (c.x_range.1 ≤ v ∧ v ≤ c.x_range.2))

/-- The aggregate returned by `raster_aggregation`: the internal canvas it
rasterized onto and the windowed coordinate vectors it selected. -/
structure RasterAggOut where
  cvs : Canvas
  ywin : List ℚ
  xwin : List ℚ
  deriving DecidableEq

/-- `raster_aggregation` (core.py lines 102-139): build the internal padded
canvas, window the data to its bounds, and raise if the windowed array is
empty; `len(data_to_rasterize)` measures only the leading (y) dimension. -/
def raster_aggregation (cvs : Canvas) (data : SrcData) (padding : ℚ) :
    Except String RasterAggOut :=
  match data with
  | SrcData.table _ => Except.error "raster_aggregation expects a raster DataArray"
  | SrcData.raster r =>
    let ywin := ywindow cvs r padding
    let xwin := xwindow cvs r padding
    if ywin.length = 0 then Except.error "No data to rasterize"
    else Except.ok ⟨stcvs cvs padding, ywin, xwin⟩

/-- C8, as stated, is false: for the raster with y coordinates [5] and
x coordinates [100] requested over the window x (0, 10), y (0, 10) with
padding 0, the windowed data has 1 * 0 = 0 selectable cells, yet
`raster_aggregation` returns an aggregate instead of raising. -/
theorem c8_counterexample :
    raster_aggregation ⟨256, 256, (0, 10), (0, 10)⟩
        (SrcData.raster ⟨[5], [100], [[some 1]]⟩) 0
      = Except.ok ⟨⟨256, 256, (0, 10), (0, 10)⟩, [5], []⟩ ∧
    ([(5 : ℚ)].length * ([] : List ℚ).length = 0) := by
  constructor
  · norm_num [raster_aggregation, ywindow, xwindow, stcvs]
  · rfl

/-- C8 (amended): `raster_aggregation` fails with the EmptyAggregate error
exactly when the windowed y-coordinate vector (the leading array dimension,
the only one `len` measures) is empty; an empty x window alone does not
trigger the error. -/
theorem c8_empty_aggregate (cvs : Canvas) (r : RasterData) (padding : ℚ) :
    (raster_aggregation cvs (SrcData.raster r) padding
        = Except.error "No data to rasterize"
      ↔ ywindow cvs r padding = []) ∧
    (ywindow cvs r padding ≠ [] →
      raster_aggregation cvs (SrcData.raster r) padding
        = Except.ok ⟨stcvs cvs padding, ywindow cvs r padding, xwindow cvs r padding⟩) := by
  constructor
  · constructor
    · intro h
      by_cases hy : (ywindow cvs r padding).length = 0
      · exact List.length_eq_zero.mp hy
      · simp only [raster_aggregation, if_neg hy] at h
        exact absurd h (by simp)
    · intro h
      simp [raster_aggregation, h]
  · intro h
    have hy : ¬ (ywindow cvs r padding).length = 0 := by
      simpa using List.length_eq_zero.not.mpr h
    simp only [raster_aggregation, if_neg hy]

/-- The fields of `MapSource` (sources.py lines 15-101) that the rendering
core reads. -/
structure MapSource where
  name : Option String
  geometry_type : Option String
  span : Span
  xfield : String
  yfield : String
  zfield : Option String
  agg_func : Option String
  shade_how : String
  cmap : ColorMap
  dynspread : Option ℚ
  extras : List String
  raster_padding : ℚ
  overviews : List RasterData
  data : SrcData
  deriving DecidableEq

/-- `MapSource.__init__` (sources.py lines 17-101) restricted to the fields
the rendering core reads: default the optional lists, raise when span is
min/max without a zfield on a non-raster source, and store the attributes;
line 79 stores the literal 0 as `raster_padding` regardless of the
`raster_padding` argument. -/
def MapSource.init (name geometry_type : Option String) (span : Span)
    (xfield yfield : String) (zfield : Option String) (agg_func : Option String)
    (shade_how : String) (cmap : ColorMap) (dynspread : Option ℚ)
    (extras : Option (List String)) (raster_padding : ℚ)
    (overviews : Option (List RasterData)) (data : SrcData) :
    Except String MapSource :=
  let extras := extras.getD []
  let overviews := overviews.getD []
  if span = Span.minmax ∧ zfield = none ∧ geometry_type ≠ some "raster" then
    Except.error "You must include a zfield for min/max scan calculation"
  else
    Except.ok
      { name := name, geometry_type := geometry_type, span := span,
        xfield := xfield, yfield := yfield, zfield := zfield,
        agg_func := agg_func, shade_how := shade_how, cmap := cmap,
        dynspread := dynspread, extras := extras,
        raster_padding := 0, overviews := overviews, data := data }

/-- Modelled from the spec: `MercatorTileDefinition.get_tile_meters`
(mapshader/mercator.py, not under src).  The fixed world square of
half-width 20037508.34 m is divided into 2 ^ z tiles along each axis and
the (x, y) cell is selected. -/
def get_tile_meters (x y z : ℚ) : ℚ × ℚ × ℚ × ℚ :=
  let world : ℚ := 2003750834 / 100
  let n : ℕ := (⌊z⌋).toNat
  let size : ℚ := (2 * world) / 2 ^ n
  (-world + x * size, -world + y * size, -world + (x + 1) * size, -world + (y + 1) * size)

/-- The extent resolution at the top of `create_agg` (core.py lines 33-36):
a complete tile address takes precedence; otherwise all four bounds must be
present. -/
def resolve_extent (xmin ymin xmax ymax x y z : Option ℚ) :
    Except String (ℚ × ℚ × ℚ × ℚ) :=
  if x.isSome ∧ y.isSome ∧ z.isSome then
    Except.ok (get_tile_meters (x.getD 0) (y.getD 0) (z.getD 0))
  else if xmin.isNone ∨ xmax.isNone ∨ ymin.isNone ∨ ymax.isNone then
    Except.error "extent must be provided to create_agg()"
  else
    Except.ok (xmin.getD 0, ymin.getD 0, xmax.getD 0, ymax.getD 0)

/-- The overview cascade of the raster branch of `create_agg` (core.py
lines 59-68): when a zoom level is present and the source has at least one
overview, pick `overviews[0]` for z < 3, `overviews[1]` for z < 6 and
`overviews[2]` for z < 9; indexing past the end of the overview list is the
Python IndexError. -/
def select_overviews (source : MapSource) (z : Option ℚ) : Except String SrcData :=
  match z with
  | none => Except.ok source.data
  | some zv =>
    if 0 < source.overviews.length then
      if zv < 3 then
        match source.overviews.get? 0 with
        | some o => Except.ok (SrcData.raster o)
        | none => Except.error "IndexError: overviews[0]"
      else if zv < 6 then
        match source.overviews.get? 1 with
        | some o => Except.ok (SrcData.raster o)
        | none => Except.error "IndexError: overviews[1]"
      else if zv < 9 then
        match source.overviews.get? 2 with
        | some o => Except.ok (SrcData.raster o)
        | none => Except.error "IndexError: overviews[2]"
      else Except.ok source.data
    else Except.ok source.data

/-- The aggregate produced by `create_agg`: the vector cases record the
canvas and parameters handed to the datashader rasterizers; the raster
case records the `raster_aggregation` output. -/
inductive AggResult where
  | points (cvs : Canvas) (xfield yfield : String) (zfield : Option String)
      (agg_func : Option String)
  | lines (cvs : Canvas) (xfield yfield : String) (zfield : Option String)
      (agg_func : Option String)
  | polygons (cvs : Canvas) (zfield : Option String) (agg_func : Option String)
  | raster (out : RasterAggOut)
  deriving DecidableEq

/-- `create_agg` (core.py lines 26-75): resolve the extent, build the
canvas, dispatch on the geometry type; the raster branch runs the overview
cascade and then `raster_aggregation` with `padding=source.raster_padding`. -/
def create_agg (source : MapSource)
    (xmin ymin xmax ymax x y z : Option ℚ)
    (height width : ℚ) : Except String AggResult :=
  match resolve_extent xmin ymin xmax ymax x y z with
  | Except.error e => Except.error e
  | Except.ok (exmin, eymin, exmax, eymax) =>
    let cvs : Canvas := ⟨width, height, (exmin, exmax), (eymin, eymax)⟩
    if source.geometry_type = some "point" then
      Except.ok (AggResult.points cvs source.xfield source.yfield
        source.zfield source.agg_func)
    else if source.geometry_type = some "line" then
      Except.ok (AggResult.lines cvs source.xfield source.yfield
        source.zfield source.agg_func)
    else if source.geometry_type = some "polygon" then
      Except.ok (AggResult.polygons cvs source.zfield source.agg_func)
    else if source.geometry_type = some "raster" then
      match select_overviews source z with
      | Except.error e => Except.error e
      | Except.ok dataset =>
        match raster_aggregation cvs dataset source.raster_padding with
        | Except.error e => Except.error e
        | Except.ok out => Except.ok (AggResult.raster out)
    else Except.error "Unkown geometry type"

/-- The internal canvas built with padding 0 is the requested canvas. -/
lemma stcvs_zero (cvs : Canvas) : stcvs cvs 0 = cvs := by
  obtain ⟨w, h, ⟨x0, x1⟩, ⟨y0, y1⟩⟩ := cvs
  simp [stcvs]

/-- C5: a complete tile address (x, y, z) takes precedence and the extent
is computed from it; with an incomplete tile address and any of the four
bounds missing, `create_agg` fails with the error saying the extent must
be provided. -/
theorem c5_extent_resolution (source : MapSource)
    (xmin ymin xmax ymax x y z : Option ℚ) (height width : ℚ) :
    (∀ xv yv zv, x = some xv → y = some yv → z = some zv →
      resolve_extent xmin ymin xmax ymax x y z
        = Except.ok (get_tile_meters xv yv zv)) ∧
    ((x = none ∨ y = none ∨ z = none) →
      (xmin = none ∨ ymin = none ∨ xmax = none ∨ ymax = none) →
      create_agg source xmin ymin xmax ymax x y z height width
        = Except.error "extent must be provided to create_agg()") := by
  constructor
  · rintro xv yv zv rfl rfl rfl
    simp [resolve_extent]
  · intro htile hbound
    have h1 : ¬ (x.isSome ∧ y.isSome ∧ z.isSome) := by
      rcases htile with h | h | h <;> simp [h]
    have h2 : xmin.isNone ∨ xmax.isNone ∨ ymin.isNone ∨ ymax.isNone := by
      rcases hbound with h | h | h | h <;> simp [h]
    have hres : resolve_extent xmin ymin xmax ymax x y z
        = Except.error "extent must be provided to create_agg()" := by
      unfold resolve_extent
      rw [if_neg h1, if_pos h2]
    simp [create_agg, hres]

/-- C2, as stated, is false: a raster source with exactly one overview and
a request at z = 5 hits `overviews[1]`, which does not exist, so selection
fails with an IndexError instead of selecting overview 1. -/
theorem c2_counterexample :
    select_overviews
        ⟨none, some "raster", Span.noSpan, "x", "y", none, none, "linear",
         ColorMap.continuous [], none, [], 0,
         [⟨[1], [1], [[some 1]]⟩],
         SrcData.raster ⟨[2], [2], [[some 2]]⟩⟩
        (some 5)
      = Except.error "IndexError: overviews[1]" := by
  norm_num [select_overviews]

/-- C2 (amended): for a raster source with at least three overviews, a
request at z < 3 selects overview 0, 3 ≤ z < 6 selects overview 1,
6 ≤ z < 9 selects overview 2, and z ≥ 9 falls back to the base raster;
with fewer than three overviews a zoom band pointing past the end of the
list fails with an IndexError. -/
theorem c2_overview_selection (src : MapSource) (o0 o1 o2 : RasterData)
    (rest : List RasterData) (h : src.overviews = o0 :: o1 :: o2 :: rest)
    (zv : ℚ) :
    (zv < 3 → select_overviews src (some zv) = Except.ok (SrcData.raster o0)) ∧
    (3 ≤ zv → zv < 6 →
      select_overviews src (some zv) = Except.ok (SrcData.raster o1)) ∧
    (6 ≤ zv → zv < 9 →
      select_overviews src (some zv) = Except.ok (SrcData.raster o2)) ∧
    (9 ≤ zv → select_overviews src (some zv) = Except.ok src.data) := by
  refine ⟨?_, ?_, ?_, ?_⟩
  · intro h3
    simp [select_overviews, h, h3]
  · intro h3 h6
    simp [select_overviews, h, h6, not_lt.mpr h3]
  · intro h6 h9
    simp [select_overviews, h, h9, not_lt.mpr h6, not_lt.mpr (by linarith : (3:ℚ) ≤ zv)]
  · intro h9
    simp [select_overviews, h, not_lt.mpr h9,
      not_lt.mpr (by linarith : (3:ℚ) ≤ zv), not_lt.mpr (by linarith : (6:ℚ) ≤ zv)]

/-- Witness for `c2_overview_selection`: a source with three overviews at
z = 5 selects overview 1. -/
theorem c2_overview_selection_witness :
    select_overviews
        ⟨none, some "raster", Span.noSpan, "x", "y", none, none, "linear",
         ColorMap.continuous [], none, [], 0,
         [⟨[1], [1], [[some 1]]⟩, ⟨[2], [2], [[some 2]]⟩, ⟨[3], [3], [[some 3]]⟩],
         SrcData.raster ⟨[4], [4], [[some 4]]⟩⟩
        (some 5)
      = Except.ok (SrcData.raster ⟨[2], [2], [[some 2]]⟩) :=
  (c2_overview_selection _ _ _ _ [] rfl 5).2.1 (by norm_num) (by norm_num)

/-- C9: whatever `raster_padding` argument the constructor receives, the
stored `raster_padding` attribute of a constructed `MapSource` is 0, so the
padding-expansion branch of `raster_aggregation` is never taken — the
internal canvas equals the requested one. -/
theorem c9_raster_padding_is_zero (name gt : Option String) (span : Span)
    (xf yf : String) (zf af : Option String) (sh : String) (cm : ColorMap)
    (dy : Option ℚ) (ex : Option (List String)) (rp : ℚ)
    (ov : Option (List RasterData)) (dt : SrcData) (src : MapSource)
    (h : MapSource.init name gt span xf yf zf af sh cm dy ex rp ov dt
          = Except.ok src) :
    src.raster_padding = 0 ∧ ∀ cvs : Canvas, stcvs cvs src.raster_padding = cvs := by
  rw [MapSource.init] at h
  split at h
  · exact absurd h (by simp)
  · have hsrc : src.raster_padding = 0 := by
      cases h
      rfl
    exact ⟨hsrc, fun cvs => by rw [hsrc]; exact stcvs_zero cvs⟩

/-- Witness for `c9_raster_padding_is_zero`: a source constructed with
raster_padding argument 7 stores 0 and leaves a canvas unexpanded. -/
theorem c9_raster_padding_is_zero_witness :
    MapSource.init none (some "raster") Span.noSpan "x" "y" none none
        "linear" (ColorMap.continuous []) none none 7 none (SrcData.table [])
      = Except.ok
        ⟨none, some "raster", Span.noSpan, "x", "y", none, none, "linear",
         ColorMap.continuous [], none, [], 0, [], SrcData.table []⟩ ∧
    (⟨none, some "raster", Span.noSpan, "x", "y", none, none, "linear",
      ColorMap.continuous [], none, [], 0, [], SrcData.table []⟩ :
        MapSource).raster_padding = 0 ∧
    stcvs ⟨256, 256, (0, 1), (0, 1)⟩
        (⟨none, some "raster", Span.noSpan, "x", "y", none, none, "linear",
          ColorMap.continuous [], none, [], 0, [], SrcData.table []⟩ :
            MapSource).raster_padding
      = ⟨256, 256, (0, 1), (0, 1)⟩ := by
  have h : MapSource.init none (some "raster") Span.noSpan "x" "y" none none
      "linear" (ColorMap.continuous []) none none 7 none (SrcData.table [])
      = Except.ok
        ⟨none, some "raster", Span.noSpan, "x", "y", none, none, "linear",
         ColorMap.continuous [], none, [], 0, [], SrcData.table []⟩ := by
    rfl
  exact ⟨h, (c9_raster_padding_is_zero _ _ _ _ _ _ _ _ _ _ _ _ _ _ _ h).1,
    (c9_raster_padding_is_zero _ _ _ _ _ _ _ _ _ _ _ _ _ _ _ h).2 _⟩

/-- C10: constructing a non-raster source with span min/max and no zfield
fails immediately with the zfield-required error; no source value is
produced. -/
theorem c10_minmax_requires_zfield (name gt : Option String)
    (xf yf : String) (af : Option String) (sh : String) (cm : ColorMap)
    (dy : Option ℚ) (ex : Option (List String)) (rp : ℚ)
    (ov : Option (List RasterData)) (dt : SrcData)
    (hgt : gt ≠ some "raster") :
    MapSource.init name gt Span.minmax xf yf none af sh cm dy ex rp ov dt
      = Except.error "You must include a zfield for min/max scan calculation" := by
  simp [MapSource.init, hgt]

/-- Witness for `c10_minmax_requires_zfield` at a polygon source. -/
theorem c10_minmax_requires_zfield_witness :
    MapSource.init none (some "polygon") Span.minmax "x" "y" none none
        "linear" (ColorMap.continuous []) none none 0 none (SrcData.table [])
      = Except.error "You must include a zfield for min/max scan calculation" :=
  c10_minmax_requires_zfield none (some "polygon") "x" "y" none "linear"
    (ColorMap.continuous []) none none 0 none (SrcData.table []) (by simp)

/-- An `xr.DataArray` aggregate entering the transform/shading stages: the
numpy dtype tag plus the cell grid. -/
structure Agg where
  dtype : String
  cells : Grid
  deriving DecidableEq

/-- `agg.data[agg.data == 0] = np.nan` (core.py line 147): every exact-zero
cell becomes the no-data sentinel. -/
def zero_to_nan (g : Grid) : Grid :=
  g.map (fun row => row.map (fun c =>
    match c with
    | none => none
    | some v => if v = 0 then none else some v))

/-- The `additional_transforms` registry (core.py lines 142-143), keyed by
name; the hillshade and quantile implementations live in the external
xrspatial library and are taken as parameters. -/
def additional_transforms (hillshadeFn quantileFn : Agg → Agg) :
    List (String × (Agg → Agg)) :=
  [("hillshade", hillshadeFn), ("quantile", quantileFn)]

/-- The transform loop of `apply_additional_transforms` (core.py lines
148-154): names found in the registry are applied in order; a name that is
in the registry but maps to nothing would raise, and a name missing from
the registry is skipped by the outer membership test. -/
def apply_extras (hs q : Agg → Agg) : List String → Agg → Except String Agg
  | [], agg => Except.ok agg
  | e :: rest, agg =>
    if (additional_transforms hs q).any (fun p => p.1 == e) then
      match (additional_transforms hs q).lookup e with
      | some t => apply_extras hs q rest (t agg)
      | none => Except.error ("Invalid transform name " ++ e)
    else
      apply_extras hs q rest agg

/-- `apply_additional_transforms` (core.py lines 145-156): cast the grid to
float64, replace exact zeros by NaN, then run the extra transforms of the
source in order. -/
def apply_additional_transforms (hs q : Agg → Agg) (source : MapSource)
    (agg : Agg) : Except String Agg :=
  let agg1 : Agg := ⟨"float64", agg.cells⟩
  let agg2 : Agg := ⟨agg1.dtype, zero_to_nan agg1.cells⟩
  apply_extras hs q source.extras agg2

/-- C3: a source whose extras name an unregistered transform does not
raise: the unknown name is silently skipped (the membership test guards the
only raise, which is unreachable), and the preprocessed aggregate is
returned for shading.  Evaluated at the failing input
extras = [missing_transform_name]. -/
theorem c3_unknown_transform_is_silently_skipped :
    apply_additional_transforms (fun a => a) (fun a => a)
        ⟨none, some "raster", Span.noSpan, "x", "y", none, none, "linear",
         ColorMap.continuous [], none, ["missing_transform_name"], 0, [],
         SrcData.table []⟩
        ⟨"int64", [[some 1, some 0]]⟩
      = Except.ok ⟨"float64", [[some 1, none]]⟩ := by
  rfl

/-- C7: `apply_additional_transforms` casts the aggregate to float64 and
replaces every exact-zero cell by the no-data sentinel before any transform
runs: the preprocessed grid has no zero cell, every zero cell of the input
becomes the sentinel (all other cells are unchanged), and the first
registered transform receives exactly the preprocessed float64 aggregate. -/
theorem c7_pre_transform_invariant (source : MapSource) (agg : Agg) :
    (∀ row ∈ zero_to_nan agg.cells, ∀ c ∈ row, c ≠ some 0) ∧
    (∀ i j row c, agg.cells.get? i = some row → row.get? j = some c →
      ∃ row2, (zero_to_nan agg.cells).get? i = some row2 ∧
        row2.get? j = some (if c = some 0 then none else c)) ∧
    (∀ hs q : Agg → Agg, ∀ rest : List String,
      apply_additional_transforms hs q { source with extras := "hillshade" :: rest } agg
        = apply_extras hs q rest (hs ⟨"float64", zero_to_nan agg.cells⟩)) := by
  refine ⟨?_, ?_, ?_⟩
  · intro row hrow c hc
    simp only [zero_to_nan, List.mem_map] at hrow
    obtain ⟨row0, _, hmap⟩ := hrow
    subst hmap
    simp only [List.mem_map] at hc
    obtain ⟨c0, _, hcmap⟩ := hc
    subst hcmap
    match c0 with
    | none => simp
    | some v =>
      by_cases hv : v = 0 <;> simp [hv]
  · intro i j row c hrow hc
    refine ⟨row.map (fun c =>
        match c with
        | none => none
        | some v => if v = 0 then none else some v), ?_, ?_⟩
    · rw [zero_to_nan, List.get?_map, hrow]
      rfl
    · rw [List.get?_map, hc]
      rcases c with _ | v
      · rfl
      · by_cases hv : v = 0 <;> simp [hv]
  · intro hs q rest
    simp [apply_additional_transforms, apply_extras, additional_transforms,
      List.lookup]

/-- The shading call produced by `shade_agg`: either a categorical
color-key call, or a continuous `tf.shade` call recording the color list,
the how function, the span bounds, and the crop window (x then y slice
labels) applied to the shaded image, if any. -/
inductive ShadeResult where
  | colorKey (agg : Agg) (key : List (ℚ × String))
  | image (agg : Agg) (cmap : List String) (how : String)
      (span : Option (ℚ × ℚ)) (crop : Option (ℚ × ℚ × ℚ × ℚ))
  deriving DecidableEq

/-- `min(skipna=True)` over a list of cells. -/
def nanmin (xs : List Cell) : Option ℚ :=
  (xs.filterMap id).minimum?

/-- `max(skipna=True)` over a list of cells. -/
def nanmax (xs : List Cell) : Option ℚ :=
  (xs.filterMap id).maximum?

/-- Python `int(...)` on a float: truncation toward zero. -/
def pyint (q : ℚ) : ℤ :=
  if 0 ≤ q then ⌊q⌋ else ⌈q⌉

/-- `shade_agg` (core.py lines 159-192): a dict cmap short-circuits to a
color-key shade; otherwise span min/max on a raster source shades with
bounds `(int(df.min()), int(df.max()) + 1)` computed over the whole source
raster and crops the image back to the requested extent; span min/max on a
vector source uses nanmin/nanmax of the zfield column; an explicit span
pair is passed through; otherwise no span. -/
def shade_agg (source : MapSource) (agg : Agg) (xmin ymin xmax ymax : ℚ) :
    Except String ShadeResult :=
  match source.cmap with
  | ColorMap.categorical key => Except.ok (ShadeResult.colorKey agg key)
  | ColorMap.continuous cmap =>
    match source.span with
    | Span.minmax =>
      if source.geometry_type = some "raster" then
        match source.data with
        | SrcData.raster r =>
          match nanmin r.values.join, nanmax r.values.join with
          | some mn, some mx =>
            Except.ok (ShadeResult.image agg cmap source.shade_how
              (some ((pyint mn : ℚ), ((pyint mx + 1 : ℤ) : ℚ)))
              (some (xmin, xmax, ymax, ymin)))
          | _, _ => Except.error "cannot convert an all-nan min or max to int"
        | SrcData.table _ => Except.error "item() is not defined on a DataFrame"
      else
        match source.zfield with
        | some zf =>
          match source.data with
          | SrcData.table cols =>
            match cols.lookup zf with
            | some col =>
              match nanmin col, nanmax col with
              | some mn, some mx =>
                Except.ok (ShadeResult.image agg cmap source.shade_how
                  (some (mn, mx)) none)
              | _, _ => Except.error "all-nan value column"
            | none => Except.error ("KeyError " ++ zf)
          | SrcData.raster _ => Except.error "column lookup on a raster"
        | none => Except.error "KeyError None"
    | Span.pair lo hi =>
      Except.ok (ShadeResult.image agg cmap source.shade_how (some (lo, hi)) none)
    | Span.noSpan =>
      Except.ok (ShadeResult.image agg cmap source.shade_how none none)

/-- C6: a categorical (dict) color map short-circuits `shade_agg` to a
color-key shade whose result mentions neither the span policy nor the how
function; overwriting both on the source does not change the result. -/
theorem c6_categorical_ignores_span_and_how (source : MapSource)
    (key : List (ℚ × String)) (agg : Agg) (x0 y0 x1 y1 : ℚ)
    (s : Span) (hw : String) (h : source.cmap = ColorMap.categorical key) :
    shade_agg source agg x0 y0 x1 y1
      = Except.ok (ShadeResult.colorKey agg key) ∧
    shade_agg { source with span := s, shade_how := hw } agg x0 y0 x1 y1
      = Except.ok (ShadeResult.colorKey agg key) := by
  constructor
  · simp only [shade_agg, h]
  · simp only [shade_agg, h]

/-- Witness for `c6_categorical_ignores_span_and_how`: a source with both a
min/max span policy and a how function set, but a categorical color map,
shades by color key. -/
theorem c6_categorical_ignores_span_and_how_witness :
    shade_agg
        ⟨none, some "raster", Span.minmax, "x", "y", none, none, "log",
         ColorMap.categorical [(1, "red")], none, [], 0, [],
         SrcData.raster ⟨[0], [0], [[some 1]]⟩⟩
        ⟨"float64", [[some 1]]⟩ 0 0 1 1
      = Except.ok (ShadeResult.colorKey ⟨"float64", [[some 1]]⟩ [(1, "red")]) :=
  (c6_categorical_ignores_span_and_how _ _ _ 0 0 1 1 Span.noSpan "linear" rfl).1

/-- Branch reduction of `shade_agg` for the raster min/max span case. -/
lemma shade_agg_raster_minmax (source : MapSource) (cols : List String)
    (r : RasterData) (mn mx : ℚ) (agg : Agg) (x0 y0 x1 y1 : ℚ)
    (hcmap : source.cmap = ColorMap.continuous cols)
    (hspan : source.span = Span.minmax)
    (hgeom : source.geometry_type = some "raster")
    (hdata : source.data = SrcData.raster r)
    (hmn : nanmin r.values.join = some mn)
    (hmx : nanmax r.values.join = some mx) :
    shade_agg source agg x0 y0 x1 y1
      = Except.ok (ShadeResult.image agg cols source.shade_how
          (some ((pyint mn : ℚ), ((pyint mx + 1 : ℤ) : ℚ)))
          (some (x0, x1, y1, y0))) := by
  simp [shade_agg, hcmap, hspan, hgeom, hdata, hmn, hmx]

/-- C4, as stated, is false: for a raster source whose full raster holds
the values 1/2 and 5/2, the min/max span branch shades with the bounds
(int(1/2), int(5/2) + 1) = (0, 3), not with the numeric minimum and
maximum (1/2, 5/2). -/
theorem c4_counterexample :
    shade_agg
        ⟨none, some "raster", Span.minmax, "x", "y", none, none, "linear",
         ColorMap.continuous ["blue"], none, [], 0, [],
         SrcData.raster ⟨[0], [0], [[some (1/2), some (5/2)]]⟩⟩
        ⟨"float64", [[some 1]]⟩ 0 0 1 1
      = Except.ok (ShadeResult.image ⟨"float64", [[some 1]]⟩ ["blue"] "linear"
          (some (0, 3)) (some (0, 1, 1, 0))) ∧
    ((0 : ℚ), (3 : ℚ)) ≠ ((1/2 : ℚ), (5/2 : ℚ)) := by
  constructor
  · have h1 : nanmin ([[some ((1 : ℚ)/2), some (5/2)]] : Grid).join = some (1/2) := by
      norm_num [nanmin, List.join, List.filterMap, List.minimum?, List.foldl, min_def]
    have h2 : nanmax ([[some ((1 : ℚ)/2), some (5/2)]] : Grid).join = some (5/2) := by
      norm_num [nanmax, List.join, List.filterMap, List.maximum?, List.foldl, max_def]
    have h := shade_agg_raster_minmax
      ⟨none, some "raster", Span.minmax, "x", "y", none, none, "linear",
       ColorMap.continuous ["blue"], none, [], 0, [],
       SrcData.raster ⟨[0], [0], [[some (1/2), some (5/2)]]⟩⟩
      ["blue"] ⟨[0], [0], [[some (1/2), some (5/2)]]⟩ (1/2) (5/2)
      ⟨"float64", [[some 1]]⟩ 0 0 1 1 rfl rfl rfl rfl h1 h2
    rw [h]
    norm_num [pyint]
  · norm_num

/-- C4 (amended): for a raster source with a continuous color map and span
policy min/max, shading uses the bounds (int-truncated minimum,
int-truncated maximum + 1) computed over the entire source raster —
independent of the current window aggregate, which is universally
quantified here — and crops the shaded image back to the originally
requested extent. -/
theorem c4_raster_minmax_span (source : MapSource) (cols : List String)
    (r : RasterData) (mn mx : ℚ) (agg : Agg) (x0 y0 x1 y1 : ℚ)
    (hcmap : source.cmap = ColorMap.continuous cols)
    (hspan : source.span = Span.minmax)
    (hgeom : source.geometry_type = some "raster")
    (hdata : source.data = SrcData.raster r)
    (hmn : nanmin r.values.join = some mn)
    (hmx : nanmax r.values.join = some mx) :
    shade_agg source agg x0 y0 x1 y1
      = Except.ok (ShadeResult.image agg cols source.shade_how
          (some ((pyint mn : ℚ), ((pyint mx + 1 : ℤ) : ℚ)))
          (some (x0, x1, y1, y0))) := by
  simp [shade_agg, hcmap, hspan, hgeom, hdata, hmn, hmx]

/-- Witness for `c4_raster_minmax_span` on a source raster holding 1 and 5:
the span is (1, 6) and the image is cropped to the requested window. -/
theorem c4_raster_minmax_span_witness :
    nanmin ([[some (1 : ℚ), some 5]] : Grid).join = some 1 ∧
    nanmax ([[some (1 : ℚ), some 5]] : Grid).join = some 5 ∧
    shade_agg
        ⟨none, some "raster", Span.minmax, "x", "y", none, none, "linear",
         ColorMap.continuous ["blue"], none, [], 0, [],
         SrcData.raster ⟨[0], [0], [[some 1, some 5]]⟩⟩
        ⟨"float64", [[some 2]]⟩ 10 20 30 40
      = Except.ok (ShadeResult.image ⟨"float64", [[some 2]]⟩ ["blue"] "linear"
          (some (1, 6)) (some (10, 30, 40, 20))) := by
  refine ⟨rfl, rfl, ?_⟩
  have h := c4_raster_minmax_span
    ⟨none, some "raster", Span.minmax, "x", "y", none, none, "linear",
     ColorMap.continuous ["blue"], none, [], 0, [],
     SrcData.raster ⟨[0], [0], [[some 1, some 5]]⟩⟩
    ["blue"] ⟨[0], [0], [[some 1, some 5]]⟩ 1 5 ⟨"float64", [[some 2]]⟩
    10 20 30 40 rfl rfl rfl rfl rfl rfl
  rw [h]
  norm_num [pyint]

end Mapshader
